import Mathlib

/-!
Verification of the occupancy core of `src/streamlit_app.py` (campus
parking dashboard).  The relational store (tables `parking_lots`,
`parking_status`, `reservations`) is embedded as lists of records; each
database-touching Python function becomes a pure Lean function on that
state.  `datetime.now()` is made explicit as a `now : Nat` parameter, and
SQLite row ids (AUTOINCREMENT) are modelled as `length + 1` at insertion
time.  Connection failures (the `conn is None` / `except Error` paths)
are not modelled for the stand-alone operations, which run on their
success path; the one deterministic failure — the nested
`update_parking_status` calls made while the seeding transaction is
still uncommitted, which always hit "database is locked" — is embedded
as the state-preserving failure it is (see `update_parking_status_locked`).
-/

namespace Parking

/-- Row of the `parking_lots` table (schema at lines 34-45 of the source).
Coordinates are embedded as rationals. -/
structure Lot where
  id : Nat
  name : String
  capacity : Int
  rate : String
  location : String
  latitude : ℚ
  longitude : ℚ
  special_info : String
  deriving DecidableEq, Repr

/-- Row of the `parking_status` table (lines 48-56): one occupancy record
per lot, created lazily. -/
structure ParkingStatus where
  id : Nat
  lot_id : Nat
  occupied : Int
  last_updated : Nat
  deriving DecidableEq, Repr

/-- Row of the `reservations` table (lines 59-70). -/
structure Reservation where
  id : Nat
  lot_id : Nat
  permit_type : String
  license_plate : String
  arrival_time : String
  reservation_time : Nat
  user_id : String
  deriving DecidableEq, Repr

/-- The whole database `parking.db`: the three tables. -/
structure DB where
  parking_lots : List Lot
  parking_status : List ParkingStatus
  reservations : List Reservation
  deriving DecidableEq, Repr

/-- The empty database, as created by the CREATE TABLE statements before
any insert. -/
def emptyDB : DB := ⟨[], [], []⟩

/-- Occupied count of a lot as read by `get_parking_lots` (lines 125-145):
the LEFT JOIN picks the `parking_status` row with matching `lot_id`, and
line 143 turns an absent row (`row[8] is None`) into 0. -/
def get_occupied (db : DB) (lid : Nat) : Int :=
  (Option.map ParkingStatus.occupied
    (List.find? (fun r => r.lot_id == lid) db.parking_status)).getD 0

/-- Whether a `parking_status` row exists for the lot: the existence check
`SELECT id FROM parking_status WHERE lot_id = ?` at lines 160-161. -/
def statusRowExists (db : DB) (lid : Nat) : Bool :=
  (List.find? (fun r => r.lot_id == lid) db.parking_status).isSome

/-- Available spots of a lot, computed in the UI as
`lot['capacity'] - lot['occupied']` (lines 251, 279, 441), with
`occupied` read through the join of `get_parking_lots`. -/
def availableSpots (db : DB) (lot : Lot) : Int :=
  lot.capacity - get_occupied db lot.id

/-- Row transformation of the SQL UPDATE at lines 162-166:
`UPDATE parking_status SET occupied = ?, last_updated = ? WHERE lot_id = ?`
acting on one row. -/
def overwriteRow (lid : Nat) (occupied : Int) (now : Nat) (r : ParkingStatus) : ParkingStatus :=
  if r.lot_id == lid then { r with occupied := occupied, last_updated := now } else r

/-- Row transformation of the SQL UPDATE at lines 194-198:
`UPDATE parking_status SET occupied = occupied + 1 WHERE lot_id = ?`
acting on one row. -/
def incRow (lid : Nat) (r : ParkingStatus) : ParkingStatus :=
  if r.lot_id == lid then { r with occupied := r.occupied + 1 } else r

/-- Embeds `update_parking_status(lot_id, occupied)` (lines 153-179): if a
status row for `lot_id` exists, the SQL UPDATE overwrites `occupied` and
`last_updated` on every row with that `lot_id`; otherwise a fresh row is
inserted.  Returns `true` on the success path (line 173). -/
def update_parking_status (db : DB) (lid : Nat) (occupied : Int) (now : Nat) : DB × Bool :=
  if statusRowExists db lid then
    ({ db with parking_status := db.parking_status.map (overwriteRow lid occupied now) },
      true)
  else
    ({ db with parking_status :=
        db.parking_status ++ [⟨db.parking_status.length + 1, lid, occupied, now⟩] },
      true)

/-- Embeds `add_reservation(lot_id, permit_type, license_plate,
arrival_time, user_id)` (lines 181-207): inserts a reservation row, then
runs `UPDATE parking_status SET occupied = occupied + 1 WHERE lot_id = ?`
— which increments every existing row with that `lot_id` and is a silent
no-op when none exists.  Returns `true` on the success path. -/
def add_reservation (db : DB) (lid : Nat)
    (permit_type license_plate arrival_time : String) (now : Nat)
    (user_id : String) : DB × Bool :=
  let db1 : DB :=
    ({ db with reservations :=
        db.reservations ++
          [⟨db.reservations.length + 1, lid, permit_type, license_plate, arrival_time, now,
            user_id⟩] })
  let db2 : DB :=
    ({ db1 with parking_status := db1.parking_status.map (incRow lid) })
  (db2, true)

/-- Outcome of a reservation attempt as the UI reports it: the success
message at line 468 versus the "No available spots in this lot" error at
line 472. -/
inductive ReserveOutcome where
  | confirmed
  | lotFull
  deriving DecidableEq, Repr

/-- The reservation path of `main` (lines 441-472): `available` is
computed as `capacity - occupied` from the fetched lot; the reservation
form (and hence `add_reservation`, with default `user_id="guest"`) is
reached only when `available > 0`, otherwise the request is rejected
without touching storage. -/
def reserve (db : DB) (lot : Lot)
    (permit_type license_plate arrival_time : String) (now : Nat) :
    DB × ReserveOutcome :=
  let available := lot.capacity - get_occupied db lot.id
  if 0 < available then
    ((add_reservation db lot.id permit_type license_plate arrival_time now "guest").1,
      ReserveOutcome.confirmed)
  else
    (db, ReserveOutcome.lotFull)

/-- The admin correction path of `main` (lines 490-504): the
`st.number_input` widget is declared with `min_value=0` and
`max_value=lot['capacity']`, so a value outside `[0, capacity]` never
reaches `update_parking_status`; an in-range value is passed through. -/
def setOccupied (db : DB) (lot : Lot) (new_occupied : Int) (now : Nat) : DB × Bool :=
  if new_occupied < 0 ∨ lot.capacity < new_occupied then
    (db, false)
  else
    update_parking_status db lot.id new_occupied now

/-- Status classification of `show_parking_map` (line 259):
`"🟢 Good" if available > 20 else "🟡 Limited" if available > 0 else
"🔴 Full"`, a pure function of capacity and occupied. -/
def statusLabel (capacity occupied : Int) : String :=
  let available := capacity - occupied
  if available > 20 then "🟢 Good" else if available > 0 then "🟡 Limited" else "🔴 Full"

/-- Embeds `classify_parking_spot(img_path, model)` (lines 94-108).  The
opaque decode-resize-predict pipeline (PIL `load_img` at a fixed 180×180
target plus `model.predict`) is represented by its result: `some score`
when it succeeds, `none` when any step raises (undecodable image, missing
model).  On success the label is `"Occupied" if score > 0.5 else
"Empty"` paired with the raw score; the `except` branch returns
`("Error", 0.0)`. -/
def classify_parking_spot (score : Option ℚ) : String × ℚ :=
  match score with
  | Option.some s => (if s > 0.5 then "Occupied" else "Empty", s)
  | Option.none => ("Error", 0)

/-- The four sample rows of `initialize_sample_data` (lines 218-223):
name, capacity, rate, location, latitude, longitude, special_info. -/
def sample_lots : List (String × Int × String × String × ℚ × ℚ × String) :=
  [("Great Hall", 31, "0.70/hr", "Near Main Entrance", 37.7749, -122.4194, "Visitor Parking"),
   ("Faculty of Science", 200, "1.00/hr", "MLT and SLT Buildings", 37.7755, -122.4180, "Students/Lecturers"),
   ("Student Union Lot", 40, "1.00/hr", "Next to Student Center", 37.7735, -122.4210, "Student Permits"),
   ("Athletics Field Parking", 150, "1.50/hr", "Near Sports Complex", 37.7760, -122.4200, "Event Parking")]

/-- The `executemany` INSERT of lines 224-228: each row gets the next
AUTOINCREMENT id (1, 2, ... on an empty table). -/
def insert_lots (db : DB) (rows : List (String × Int × String × String × ℚ × ℚ × String)) : DB :=
  rows.foldl (fun d t =>
    { d with parking_lots := d.parking_lots ++
        [⟨d.parking_lots.length + 1, t.1, t.2.1, t.2.2.1, t.2.2.2.1, t.2.2.2.2.1,
          t.2.2.2.2.2.1, t.2.2.2.2.2.2⟩] }) db

/-- The `update_parking_status` call as made from inside
`initialize_sample_data` (line 234): the caller's own connection still
holds the uncommitted write transaction of the `executemany` insert
(lines 224-228; its `conn.commit()` only runs at line 236), and
`update_parking_status` opens a second connection to the same database
file in the same thread.  SQLite admits a single write transaction, so
the nested INSERT can never take the lock: it times out with
`OperationalError: database is locked`, the `except Error` handler at
line 174 catches it and returns `False`, and the database is left
unchanged.  This failure is deterministic, so the nested call is
embedded as exactly that: no state change, result `False`. -/
def update_parking_status_locked (db : DB) (lid : Nat) (occupied : Int) (now : Nat) :
    DB × Bool :=
  (db, false)

/-- Embeds `initialize_sample_data` (lines 210-240; renamed for Lean): on
an empty `parking_lots` table, inserts the four sample lots, then for
each lot id draws `random.randint(lot_id*10, lot_id*20)` and attempts to
store it through `update_parking_status` — an attempt that always fails
with "database is locked" because it runs inside the still-uncommitted
insert transaction (see `update_parking_status_locked`), so no
`parking_status` row is ever written.  The random draw is an explicit
oracle `randint lo hi`, required by `random.randint` to land in
`[lo, hi]`; its results are drawn and then lost. -/
def seed_sample_data (db : DB) (randint : Nat → Nat → Int) (now : Nat) : DB :=
  if db.parking_lots.length == 0 then
    let db1 := insert_lots db sample_lots
    db1.parking_lots.foldl
      (fun d l => (update_parking_status_locked d l.id (randint (l.id * 10) (l.id * 20)) now).1)
      db1
  else db

/-- One user-visible mutating action: a reservation attempt or an admin
occupancy correction, each on a lot taken from the lot list the UI
offers. -/
inductive UIOp where
  | reserveOp (lot : Lot) (permit_type license_plate arrival_time : String) (now : Nat)
  | setOccOp (lot : Lot) (new_occupied : Int) (now : Nat)
  deriving DecidableEq, Repr

/-- The lot an operation targets. -/
def UIOp.lot : UIOp → Lot
  | UIOp.reserveOp l _ _ _ _ => l
  | UIOp.setOccOp l _ _ => l

/-- State transition of one operation. -/
def applyOp (db : DB) : UIOp → DB
  | UIOp.reserveOp l p pl a t => (reserve db l p pl a t).1
  | UIOp.setOccOp l n t => (setOccupied db l n t).1

/-- State after a sequence of operations. -/
def applyOps (db : DB) (ops : List UIOp) : DB :=
  ops.foldl applyOp db

/-- The occupancy invariant: every lot's occupied count lies in
`[0, capacity]`. -/
def lotsInv (db : DB) : Prop :=
  ∀ l ∈ db.parking_lots, 0 ≤ get_occupied db l.id ∧ get_occupied db l.id ≤ l.capacity

instance (db : DB) : Decidable (lotsInv db) := by
  unfold lotsInv
  infer_instance

lemma overwriteRow_lot_id (lid : Nat) (n : Int) (t : Nat) (r : ParkingStatus) :
    (overwriteRow lid n t r).lot_id = r.lot_id := by
  by_cases h : r.lot_id = lid <;> simp [overwriteRow, h]

lemma incRow_lot_id (lid : Nat) (r : ParkingStatus) :
    (incRow lid r).lot_id = r.lot_id := by
  by_cases h : r.lot_id = lid <;> simp [incRow, h]

lemma find?_map_overwriteRow (l : List ParkingStatus) (lid : Nat) (n : Int) (t : Nat) :
    List.find? (fun r => r.lot_id == lid) (l.map (overwriteRow lid n t))
      = Option.map (overwriteRow lid n t) (List.find? (fun r => r.lot_id == lid) l) := by
  induction l with
  | nil => rfl
  | cons a l ih =>
    by_cases h : a.lot_id = lid
    · simp [overwriteRow, h]
    · simp [overwriteRow, h, ih]

lemma find?_map_incRow (l : List ParkingStatus) (lid : Nat) :
    List.find? (fun r => r.lot_id == lid) (l.map (incRow lid))
      = Option.map (incRow lid) (List.find? (fun r => r.lot_id == lid) l) := by
  induction l with
  | nil => rfl
  | cons a l ih =>
    by_cases h : a.lot_id = lid
    · simp [incRow, h]
    · simp [incRow, h, ih]

lemma find?_map_overwriteRow_ne (l : List ParkingStatus) (lid lid2 : Nat) (n : Int) (t : Nat)
    (h : lid2 ≠ lid) :
    List.find? (fun r => r.lot_id == lid2) (l.map (overwriteRow lid n t))
      = List.find? (fun r => r.lot_id == lid2) l := by
  induction l with
  | nil => rfl
  | cons a l ih =>
    by_cases h1 : a.lot_id = lid
    · simp [overwriteRow, h1, Ne.symm h, ih]
    · by_cases h2 : a.lot_id = lid2
      · simp [overwriteRow, h1, h2, h]
      · simp [overwriteRow, h1, h2, ih]

lemma find?_map_incRow_ne (l : List ParkingStatus) (lid lid2 : Nat) (h : lid2 ≠ lid) :
    List.find? (fun r => r.lot_id == lid2) (l.map (incRow lid))
      = List.find? (fun r => r.lot_id == lid2) l := by
  induction l with
  | nil => rfl
  | cons a l ih =>
    by_cases h1 : a.lot_id = lid
    · simp [incRow, h1, Ne.symm h, ih]
    · by_cases h2 : a.lot_id = lid2
      · simp [incRow, h1, h2, h]
      · simp [incRow, h1, h2, ih]

lemma get_occupied_of_not_exists (db : DB) (lid : Nat)
    (h : statusRowExists db lid = false) : get_occupied db lid = 0 := by
  unfold statusRowExists at h
  have hnone : List.find? (fun r => r.lot_id == lid) db.parking_status = Option.none :=
    Option.not_isSome_iff_eq_none.mp (by simp [h])
  unfold get_occupied
  rw [hnone]
  rfl

lemma update_parking_lots (db : DB) (lid : Nat) (n : Int) (t : Nat) :
    (update_parking_status db lid n t).1.parking_lots = db.parking_lots := by
  unfold update_parking_status
  by_cases h : statusRowExists db lid = true <;> simp [h]

lemma add_reservation_parking_lots (db : DB) (lid : Nat) (p pl a : String) (t : Nat) (u : String) :
    (add_reservation db lid p pl a t u).1.parking_lots = db.parking_lots := rfl

lemma get_occupied_update_self (db : DB) (lid : Nat) (n : Int) (t : Nat) :
    get_occupied (update_parking_status db lid n t).1 lid = n := by
  unfold update_parking_status
  by_cases h : statusRowExists db lid = true
  · simp only [h, if_true]
    unfold get_occupied
    simp only [find?_map_overwriteRow]
    unfold statusRowExists at h
    obtain ⟨r, hr⟩ := Option.isSome_iff_exists.mp h
    have hpr : r.lot_id = lid := by simpa using List.find?_some hr
    simp [hr, overwriteRow, hpr]
  · simp only [h, if_false, Bool.false_eq_true]
    unfold get_occupied
    unfold statusRowExists at h
    have hnone : List.find? (fun r => r.lot_id == lid) db.parking_status = Option.none :=
      Option.not_isSome_iff_eq_none.mp (by simp [h])
    simp [List.find?_append, hnone]

lemma get_occupied_update_other (db : DB) (lid lid2 : Nat) (n : Int) (t : Nat)
    (h : lid2 ≠ lid) :
    get_occupied (update_parking_status db lid n t).1 lid2 = get_occupied db lid2 := by
  unfold update_parking_status
  by_cases he : statusRowExists db lid = true
  · simp only [he, if_true]
    unfold get_occupied
    rw [find?_map_overwriteRow_ne _ _ _ _ _ h]
  · simp only [he, if_false, Bool.false_eq_true]
    unfold get_occupied
    rw [List.find?_append]
    have hone : List.find? (fun r => r.lot_id == lid2)
        [(⟨db.parking_status.length + 1, lid, n, t⟩ : ParkingStatus)] = Option.none := by
      rw [List.find?_cons_of_neg]
      · rfl
      · simp
        omega
    simp [hone]

lemma statusRowExists_update_self (db : DB) (lid : Nat) (n : Int) (t : Nat) :
    statusRowExists (update_parking_status db lid n t).1 lid = true := by
  unfold update_parking_status
  by_cases h : statusRowExists db lid = true
  · simp only [h, if_true]
    unfold statusRowExists at h ⊢
    simp only [find?_map_overwriteRow]
    obtain ⟨r, hr⟩ := Option.isSome_iff_exists.mp h
    simp [hr]
  · simp only [h, if_false, Bool.false_eq_true]
    unfold statusRowExists at h ⊢
    have hnone : List.find? (fun r => r.lot_id == lid) db.parking_status = Option.none :=
      Option.not_isSome_iff_eq_none.mp (by simp [h])
    simp [List.find?_append, hnone]

lemma get_occupied_add_reservation_self (db : DB) (lid : Nat) (p pl a : String) (t : Nat)
    (u : String) :
    get_occupied (add_reservation db lid p pl a t u).1 lid
      = if statusRowExists db lid then get_occupied db lid + 1 else 0 := by
  unfold add_reservation
  by_cases h : statusRowExists db lid = true
  · simp only [h, if_true]
    unfold get_occupied
    simp only [find?_map_incRow]
    unfold statusRowExists at h
    obtain ⟨r, hr⟩ := Option.isSome_iff_exists.mp h
    have hpr : r.lot_id = lid := by simpa using List.find?_some hr
    simp [hr, incRow, hpr]
  · simp only [h, if_false, Bool.false_eq_true]
    unfold get_occupied
    unfold statusRowExists at h
    have hnone : List.find? (fun r => r.lot_id == lid) db.parking_status = Option.none :=
      Option.not_isSome_iff_eq_none.mp (by simp [h])
    simp only [find?_map_incRow]
    simp [hnone]

lemma get_occupied_add_reservation_other (db : DB) (lid lid2 : Nat) (p pl a : String) (t : Nat)
    (u : String) (h : lid2 ≠ lid) :
    get_occupied (add_reservation db lid p pl a t u).1 lid2 = get_occupied db lid2 := by
  unfold add_reservation get_occupied
  rw [find?_map_incRow_ne _ _ _ h]

lemma update_parking_status_snd (db : DB) (lid : Nat) (n : Int) (t : Nat) :
    (update_parking_status db lid n t).2 = true := by
  unfold update_parking_status
  by_cases h : statusRowExists db lid = true <;> simp [h]

lemma map_overwriteRow_idem (l : List ParkingStatus) (lid : Nat) (n : Int) (t : Nat) :
    (l.map (overwriteRow lid n t)).map (overwriteRow lid n t) = l.map (overwriteRow lid n t) := by
  rw [List.map_map]
  apply List.map_congr_left
  intro a _
  by_cases h : a.lot_id = lid <;> simp [overwriteRow, Function.comp, h]

lemma overwriteRow_idem (lid : Nat) (n : Int) (t : Nat) (r : ParkingStatus) :
    overwriteRow lid n t (overwriteRow lid n t r) = overwriteRow lid n t r := by
  by_cases h : r.lot_id = lid <;> simp [overwriteRow, h]

lemma map_overwriteRow_of_none (l : List ParkingStatus) (lid : Nat) (n : Int) (t : Nat)
    (h : List.find? (fun r => r.lot_id == lid) l = Option.none) :
    l.map (overwriteRow lid n t) = l := by
  have hall := List.find?_eq_none.mp h
  conv_rhs => rw [← List.map_id l]
  apply List.map_congr_left
  intro a ha
  have hne : ¬ a.lot_id = lid := by simpa using hall a ha
  simp [overwriteRow, hne]

lemma applyOp_parking_lots (db : DB) (op : UIOp) :
    (applyOp db op).parking_lots = db.parking_lots := by
  cases op with
  | reserveOp l p pl a t =>
    simp only [applyOp, reserve]
    by_cases h : 0 < l.capacity - get_occupied db l.id
    · simp [h, add_reservation_parking_lots]
    · simp [h]
  | setOccOp l n t =>
    simp only [applyOp, setOccupied]
    by_cases h : n < 0 ∨ l.capacity < n
    · simp [h]
    · simp [h, update_parking_lots]

lemma applyOp_preserves_inv (db : DB) (op : UIOp)
    (hids : (db.parking_lots.map Lot.id).Nodup)
    (hmem : op.lot ∈ db.parking_lots)
    (hinv : lotsInv db) : lotsInv (applyOp db op) := by
  unfold lotsInv at hinv ⊢
  cases op with
  | reserveOp lot p pl a t =>
    simp only [UIOp.lot] at hmem
    simp only [applyOp, reserve]
    by_cases h : 0 < lot.capacity - get_occupied db lot.id
    · simp only [h, if_true]
      intro l hl
      rw [add_reservation_parking_lots] at hl
      by_cases hid : l.id = lot.id
      · have hleq : l = lot := List.inj_on_of_nodup_map hids hl hmem hid
        rw [hleq, get_occupied_add_reservation_self]
        have hbound := hinv lot hmem
        by_cases hex : statusRowExists db lot.id = true
        · simp only [hex, if_true]
          omega
        · simp only [Bool.not_eq_true] at hex
          simp only [hex, Bool.false_eq_true, if_false]
          omega
      · rw [get_occupied_add_reservation_other _ _ _ _ _ _ _ _ hid]
        exact hinv l hl
    · simp only [h, if_false]
      exact hinv
  | setOccOp lot n t =>
    simp only [UIOp.lot] at hmem
    simp only [applyOp, setOccupied]
    by_cases h : n < 0 ∨ lot.capacity < n
    · simp only [h, if_true]
      exact hinv
    · simp only [h, if_false]
      intro l hl
      rw [update_parking_lots] at hl
      by_cases hid : l.id = lot.id
      · have hleq : l = lot := List.inj_on_of_nodup_map hids hl hmem hid
        rw [hleq, get_occupied_update_self]
        omega
      · rw [get_occupied_update_other _ _ _ _ _ hid]
        exact hinv l hl

/-- Demo lot "Great Hall" with the id (1) it receives when seeded. -/
def lotGH : Lot :=
  ⟨1, "Great Hall", 31, "0.70/hr", "Near Main Entrance", 37.7749, -122.4194, "Visitor Parking"⟩

/-- Demo lot "Student Union Lot" with the id (3) it receives when seeded. -/
def lotSU : Lot :=
  ⟨3, "Student Union Lot", 40, "1.00/hr", "Next to Student Center", 37.7735, -122.4210,
    "Student Permits"⟩

/-- One lot, no occupancy row yet. -/
def dbNoStatus : DB := ⟨[lotGH], [], []⟩

/-- One lot with an occupancy row recording 30 of 31 spots taken. -/
def dbWithStatus : DB := ⟨[lotGH], [⟨1, 1, 30, 0⟩], []⟩

/-- One full lot: 31 of 31 spots taken. -/
def dbFull : DB := ⟨[lotGH], [⟨1, 1, 31, 0⟩], []⟩

/-- A state whose status row records occupied (60) above capacity (40)
for the Student Union Lot. -/
def dbOverCap : DB := ⟨[lotSU], [⟨1, 3, 60, 0⟩], []⟩

/-- A demo interaction sequence: reserve, admin correction, reserve. -/
def demoOps : List UIOp :=
  [UIOp.reserveOp lotGH "Student" "KAA 001A" "09:00" 1,
   UIOp.setOccOp lotGH 31 2,
   UIOp.reserveOp lotGH "Visitor" "KAA 002B" "09:30" 3]

/-- Claim C1: from any state satisfying the occupancy invariant, any
sequence of reservation attempts (`add_reservation` behind the
availability gate of `main`) and admin corrections
(`update_parking_status` behind the widget bounds of `main`), each
aimed at a lot of the database, keeps every lot's occupied count within
`0 ≤ occupied ≤ capacity`; applied to every prefix of a sequence, this
is the invariant after each operation. -/
theorem C1_occupancy_invariant_preserved (db : DB) (ops : List UIOp)
    (hids : (db.parking_lots.map Lot.id).Nodup)
    (hmem : ∀ op ∈ ops, op.lot ∈ db.parking_lots)
    (hinv : lotsInv db) :
    lotsInv (applyOps db ops) := by
  induction ops generalizing db with
  | nil => exact hinv
  | cons op ops ih =>
    have hop := applyOp_preserves_inv db op hids (hmem op (List.mem_cons_self op ops)) hinv
    have hpl := applyOp_parking_lots db op
    have hids2 : ((applyOp db op).parking_lots.map Lot.id).Nodup := by
      rw [hpl]
      exact hids
    have hmem2 : ∀ o ∈ ops, o.lot ∈ (applyOp db op).parking_lots := by
      intro o ho
      rw [hpl]
      exact hmem o (List.mem_cons_of_mem op ho)
    simpa [applyOps, List.foldl_cons] using ih (applyOp db op) hids2 hmem2 hop

/-- Witness for C1 at a concrete state and operation sequence. -/
theorem C1_witness : lotsInv dbWithStatus ∧ lotsInv (applyOps dbWithStatus demoOps) :=
  ⟨by decide,
    C1_occupancy_invariant_preserved dbWithStatus demoOps (by decide)
      (by
        intro op hop
        simp only [demoOps, List.mem_cons, List.not_mem_nil, or_false] at hop
        rcases hop with h | h | h <;> simp [h, UIOp.lot, dbWithStatus])
      (by decide)⟩

/-- Claim C2: a reservation attempt on a lot whose available spots
(capacity minus occupied) are ≤ 0 returns the lot-full outcome — an
outcome distinct from a confirmation — and leaves the database, hence
the lot's occupied count, untouched: `add_reservation` (the storage
write) is never reached on this path. -/
theorem C2_reserve_full_rejected (db : DB) (lot : Lot) (p pl a : String) (t : Nat)
    (hfull : availableSpots db lot ≤ 0) :
    reserve db lot p pl a t = (db, ReserveOutcome.lotFull) ∧
    ReserveOutcome.lotFull ≠ ReserveOutcome.confirmed := by
  unfold availableSpots at hfull
  have h : ¬ (0 < lot.capacity - get_occupied db lot.id) := by omega
  exact ⟨by simp [reserve, h], by decide⟩

/-- Witness for C2 on a concrete full lot. -/
theorem C2_witness :
    availableSpots dbFull lotGH ≤ 0 ∧
    reserve dbFull lotGH "Student" "KAA 003C" "10:00" 4 = (dbFull, ReserveOutcome.lotFull) :=
  ⟨by decide,
    (C2_reserve_full_rejected dbFull lotGH "Student" "KAA 003C" "10:00" 4 (by decide)).1⟩

/-- Claim C3: the admin correction path rejects a new occupied count
below 0 or above the lot's capacity, leaving the state unchanged, and
otherwise hands the value to the storage upsert `update_parking_status`,
which succeeds. -/
theorem C3_setOccupied_bounds (db : DB) (lot : Lot) (n : Int) (t : Nat) :
    (n < 0 ∨ lot.capacity < n → setOccupied db lot n t = (db, false)) ∧
    (0 ≤ n → n ≤ lot.capacity →
      setOccupied db lot n t = update_parking_status db lot.id n t ∧
      (setOccupied db lot n t).2 = true) := by
  constructor
  · intro h
    simp [setOccupied, h]
  · intro h1 h2
    have h : ¬ (n < 0 ∨ lot.capacity < n) := by omega
    refine ⟨by simp [setOccupied, h], ?_⟩
    simp only [setOccupied, h, if_false]
    exact update_parking_status_snd db lot.id n t

/-- Witness for C3: a negative count is rejected with the state intact,
an in-range count is delegated to the upsert. -/
theorem C3_witness :
    setOccupied dbWithStatus lotGH (-1) 6 = (dbWithStatus, false) ∧
    setOccupied dbWithStatus lotGH 31 6 = update_parking_status dbWithStatus 1 31 6 :=
  ⟨(C3_setOccupied_bounds dbWithStatus lotGH (-1) 6).1 (Or.inl (by decide)),
    ((C3_setOccupied_bounds dbWithStatus lotGH 31 6).2 (by decide) (by decide)).1⟩

/-- Counterexample to claim C4 as stated: on a lot with no occupancy
row yet, the reservation succeeds (the reservation row is inserted and
the call reports success) but the occupied count stays 0 — the SQL
UPDATE matches no row — so `availableSpots` afterwards equals its old
value 31, not one fewer. -/
theorem C4_counterexample :
    statusRowExists dbNoStatus lotGH.id = false ∧
    (reserve dbNoStatus lotGH "Student" "KAA 004D" "10:00" 5).2 = ReserveOutcome.confirmed ∧
    availableSpots (reserve dbNoStatus lotGH "Student" "KAA 004D" "10:00" 5).1 lotGH = 31 ∧
    availableSpots dbNoStatus lotGH = 31 ∧
    ((31 : Int) = 31 - 1 → False) := by
  refine ⟨by decide, by decide, by decide, by decide, by decide⟩

/-- Claim C4 amended: on a lot that already has an occupancy-status row,
a successful reservation increments the lot's occupied count by exactly
1, so `availableSpots` immediately afterwards is exactly one fewer; on a
lot with no status row the reservation still succeeds but the occupied
count stays 0 (the increment is a silent no-op). -/
theorem C4_reserve_increments (db : DB) (lot : Lot) (p pl a : String) (t : Nat)
    (havail : 0 < availableSpots db lot) :
    (reserve db lot p pl a t).2 = ReserveOutcome.confirmed ∧
    (statusRowExists db lot.id = true →
      get_occupied (reserve db lot p pl a t).1 lot.id = get_occupied db lot.id + 1 ∧
      availableSpots (reserve db lot p pl a t).1 lot = availableSpots db lot - 1) ∧
    (statusRowExists db lot.id = false →
      get_occupied (reserve db lot p pl a t).1 lot.id = 0) := by
  unfold availableSpots at havail ⊢
  simp only [reserve, havail, if_true]
  refine ⟨trivial, ?_, ?_⟩
  · intro hrow
    have hg : get_occupied (add_reservation db lot.id p pl a t "guest").1 lot.id
        = get_occupied db lot.id + 1 := by
      rw [get_occupied_add_reservation_self, hrow]
      simp
    rw [hg]
    omega
  · intro hrow
    have hg : get_occupied (add_reservation db lot.id p pl a t "guest").1 lot.id = 0 := by
      rw [get_occupied_add_reservation_self, hrow]
      simp
    rw [hg]

/-- Witness for C4 (amended) on a lot with a status row: 30 of 31
occupied becomes 31 of 31. -/
theorem C4_witness :
    0 < availableSpots dbWithStatus lotGH ∧
    statusRowExists dbWithStatus lotGH.id = true ∧
    get_occupied (reserve dbWithStatus lotGH "Student" "KAA 005E" "11:00" 6).1 lotGH.id
      = get_occupied dbWithStatus lotGH.id + 1 :=
  ⟨by decide, by decide,
    (((C4_reserve_increments dbWithStatus lotGH "Student" "KAA 005E" "11:00" 6
      (by decide)).2.1) (by decide)).1⟩

/-- Counterexample to claim C5 as stated: `availableSpots` is plain
subtraction with no lower clamp, so on a state where occupied (60)
exceeds capacity (40) it is negative. -/
theorem C5_counterexample :
    availableSpots dbOverCap lotSU = -20 ∧ availableSpots dbOverCap lotSU < 0 := by
  exact ⟨by decide, by decide⟩

/-- Claim C5 amended: `availableSpots` equals capacity minus occupied,
a missing occupancy row is read as occupied 0, and the result is
non-negative whenever occupied is at most capacity (in particular under
the invariant) — but it can go negative when occupied exceeds
capacity. -/
theorem C5_availableSpots_formula (db : DB) (lot : Lot) :
    availableSpots db lot = lot.capacity - get_occupied db lot.id ∧
    (statusRowExists db lot.id = false → get_occupied db lot.id = 0) ∧
    (get_occupied db lot.id ≤ lot.capacity → 0 ≤ availableSpots db lot) := by
  refine ⟨rfl, get_occupied_of_not_exists db lot.id, ?_⟩
  intro h
  unfold availableSpots
  omega

/-- Witness for C5 (amended) on a concrete row-less state. -/
theorem C5_witness :
    get_occupied dbNoStatus lotGH.id = 0 ∧ 0 ≤ availableSpots dbNoStatus lotGH :=
  ⟨(C5_availableSpots_formula dbNoStatus lotGH).2.1 (by decide),
    (C5_availableSpots_formula dbNoStatus lotGH).2.2 (by decide)⟩

/-- Counterexample to claim C6 as stated: the label cannot be "Full"
exactly when available equals 0, because the else-branch of line 259
also catches negative availability: with capacity 40 and occupied 60 the
label is "Full" while available is -20, not 0. -/
theorem C6_counterexample :
    statusLabel 40 60 = "🔴 Full" ∧ ((40 : Int) - 60 = 0 → False) := by
  exact ⟨by decide, by decide⟩

/-- Claim C6 amended: the display label is a pure function of capacity
and occupied with "Good" exactly when available > 20, "Limited" exactly
when 0 < available ≤ 20, and "Full" exactly when available ≤ 0 (not
only when it is exactly 0); the claimed boundary examples at capacity
100 all hold. -/
theorem C6_statusLabel_boundaries (capacity occupied : Int) :
    (statusLabel capacity occupied = "🟢 Good" ↔ 20 < capacity - occupied) ∧
    (statusLabel capacity occupied = "🟡 Limited" ↔
      0 < capacity - occupied ∧ capacity - occupied ≤ 20) ∧
    (statusLabel capacity occupied = "🔴 Full" ↔ capacity - occupied ≤ 0) ∧
    statusLabel 100 79 = "🟢 Good" ∧ statusLabel 100 80 = "🟡 Limited" ∧
    statusLabel 100 100 = "🔴 Full" := by
  refine ⟨?_, ?_, ?_, by decide, by decide, by decide⟩ <;>
    · unfold statusLabel
      dsimp only
      split_ifs with h1 h2 <;> simp_all <;> omega

/-- Witness for C6 at the claimed boundary inputs. -/
theorem C6_witness :
    statusLabel 100 79 = "🟢 Good" ∧ (statusLabel 100 100 = "🔴 Full" ↔ (100 : Int) - 100 ≤ 0) :=
  ⟨(C6_statusLabel_boundaries 100 79).2.2.2.1, (C6_statusLabel_boundaries 100 100).2.2.1⟩

/-- Claim C7: on a successfully decoded image with model score `s`, the
adapter returns the label "Occupied" exactly when `s > 0.5` and "Empty"
otherwise, always paired with the raw score; in particular score 0.2
gives ("Empty", 0.2) and score 0.9 gives ("Occupied", 0.9). -/
theorem C7_classify_threshold (s : ℚ) :
    classify_parking_spot (Option.some s) = (if s > 0.5 then "Occupied" else "Empty", s) ∧
    ((classify_parking_spot (Option.some s)).1 = "Occupied" ↔ 0.5 < s) ∧
    ((classify_parking_spot (Option.some s)).1 = "Empty" ↔ ¬ 0.5 < s) ∧
    (classify_parking_spot (Option.some s)).2 = s ∧
    classify_parking_spot (Option.some 0.2) = ("Empty", 0.2) ∧
    classify_parking_spot (Option.some 0.9) = ("Occupied", 0.9) := by
  refine ⟨rfl, ?_, ?_, rfl, by norm_num [classify_parking_spot],
    by norm_num [classify_parking_spot]⟩ <;>
    · unfold classify_parking_spot
      by_cases h : s > 0.5 <;> simp [h]

/-- Witness for C7 at the claimed stub scores. -/
theorem C7_witness :
    classify_parking_spot (Option.some 0.2) = ("Empty", 0.2) ∧
    classify_parking_spot (Option.some 0.9) = ("Occupied", 0.9) :=
  ⟨(C7_classify_threshold 0.2).2.2.2.2.1, (C7_classify_threshold 0.9).2.2.2.2.2⟩

/-- Claim C8: when decoding or prediction fails, the adapter returns the
("Error", 0.0) result instead of raising (the embedding is a total
function, so every input yields a value), and that label differs from
both success labels, which in turn are never "Error". -/
theorem C8_classify_failure_distinguishable :
    classify_parking_spot Option.none = ("Error", 0) ∧
    (("Error" : String) = "Occupied" → False) ∧
    (("Error" : String) = "Empty" → False) ∧
    (∀ s : ℚ, (classify_parking_spot (Option.some s)).1 = "Error" → False) := by
  refine ⟨rfl, by decide, by decide, ?_⟩
  intro s
  unfold classify_parking_spot
  by_cases h : s > 0.5 <;> simp [h]

/-- Witness for C8: the error result on a failed classification differs
from both success outcomes at score 0.9. -/
theorem C8_witness :
    (classify_parking_spot Option.none).1 = "Error" ∧
    ((classify_parking_spot (Option.some 0.9)).1 = "Error" → False) :=
  ⟨by rw [C8_classify_failure_distinguishable.1], C8_classify_failure_distinguishable.2.2.2 0.9⟩

/-- Claim C9: the upsert creates a status row (with the lot id, count
and timestamp) when none exists for the lot, otherwise overwrites the
existing row's occupied and last-updated fields, and a second call with
the same count and timestamp leaves the state of the first call
unchanged (idempotence). -/
theorem C9_upsert_idempotent (db : DB) (lid : Nat) (n : Int) (t : Nat) :
    (statusRowExists db lid = false →
      (update_parking_status db lid n t).1.parking_status
        = db.parking_status ++ [⟨db.parking_status.length + 1, lid, n, t⟩]) ∧
    (statusRowExists db lid = true →
      (update_parking_status db lid n t).1.parking_status
        = db.parking_status.map (overwriteRow lid n t)) ∧
    (update_parking_status (update_parking_status db lid n t).1 lid n t).1
      = (update_parking_status db lid n t).1 := by
  refine ⟨?_, ?_, ?_⟩
  · intro h
    simp [update_parking_status, h]
  · intro h
    simp [update_parking_status, h]
  · have hex := statusRowExists_update_self db lid n t
    by_cases h : statusRowExists db lid = true
    · have h1 : (update_parking_status db lid n t).1
          = { db with parking_status := db.parking_status.map (overwriteRow lid n t) } := by
        simp [update_parking_status, h]
      rw [h1] at hex ⊢
      simp only [update_parking_status, hex, if_true]
      simp [map_overwriteRow_idem, overwriteRow_idem]
    · have h0 : statusRowExists db lid = false := by simpa using h
      have h1 : (update_parking_status db lid n t).1
          = { db with parking_status :=
              db.parking_status ++ [⟨db.parking_status.length + 1, lid, n, t⟩] } := by
        simp [update_parking_status, h0]
      rw [h1] at hex ⊢
      simp only [update_parking_status, hex, if_true]
      have hnone : List.find? (fun r => r.lot_id == lid) db.parking_status = Option.none := by
        unfold statusRowExists at h0
        exact Option.not_isSome_iff_eq_none.mp (by simp [h0])
      simp [List.map_append, map_overwriteRow_of_none _ _ _ _ hnone, overwriteRow]

/-- Witness for C9: creation on a row-less state, then idempotent
re-application of the same upsert. -/
theorem C9_witness :
    (update_parking_status dbNoStatus 1 5 9).1.parking_status
      = dbNoStatus.parking_status ++ [⟨dbNoStatus.parking_status.length + 1, 1, 5, 9⟩] ∧
    (update_parking_status (update_parking_status dbNoStatus 1 5 9).1 1 5 9).1
      = (update_parking_status dbNoStatus 1 5 9).1 :=
  ⟨(C9_upsert_idempotent dbNoStatus 1 5 9).1 (by decide),
    (C9_upsert_idempotent dbNoStatus 1 5 9).2.2⟩

/-- A possible outcome of the `random.randint` draws in the seeding
routine: 41 on the call with bounds (30, 60) — the Student Union Lot's
call, the over-capacity outcome the claim relies on — and the lower
bound everywhere else. -/
def demoRandint : Nat → Nat → Int :=
  fun lo hi => if lo == 30 && hi == 60 then 41 else (lo : Int)

/-- Counterexample to claim C10 as stated: even at the very draw outcome
the claim relies on — `demoRandint` yields 41 ∈ [30, 60] on the Student
Union Lot's call — seeding writes no `parking_status` row at all (each
nested `update_parking_status` call fails with "database is locked" and
returns False), so lot 3's occupied count reads 0 and the
occupied ≤ capacity invariant holds immediately after seeding, not the
claimed violation. -/
theorem C10_counterexample :
    demoRandint 30 60 = 41 ∧
    (seed_sample_data emptyDB demoRandint 0).parking_status = [] ∧
    get_occupied (seed_sample_data emptyDB demoRandint 0) 3 = 0 ∧
    lotsInv (seed_sample_data emptyDB demoRandint 0) := by
  refine ⟨by decide, by decide, by decide, by decide⟩

/-- Claim C10 amended: seeding an empty database inserts the four sample
lots — the third is "Student Union Lot" with id 3 and capacity 40 — but
assigns no lot an initial occupied count: whatever the random draws
return, every nested occupancy write fails ("database is locked", see
`update_parking_status_locked`), the status table stays empty, every
occupied count reads 0, and the occupied ≤ capacity invariant holds
right after seeding. -/
theorem C10_seeding_writes_no_occupancy (randint : Nat → Nat → Int) (now : Nat) :
    (seed_sample_data emptyDB randint now).parking_status = [] ∧
    lotsInv (seed_sample_data emptyDB randint now) ∧
    (∃ l ∈ (seed_sample_data emptyDB randint now).parking_lots,
      l.id = 3 ∧ l.name = "Student Union Lot" ∧ l.capacity = 40 ∧
      get_occupied (seed_sample_data emptyDB randint now) l.id = 0) := by
  have h : seed_sample_data emptyDB randint now = insert_lots emptyDB sample_lots := rfl
  rw [h]
  exact ⟨by decide, by decide, by decide⟩

/-- Witness for C10 (amended) at the concrete draw `demoRandint`. -/
theorem C10_witness :
    (seed_sample_data emptyDB demoRandint 0).parking_status = [] ∧
    lotsInv (seed_sample_data emptyDB demoRandint 0) :=
  ⟨(C10_seeding_writes_no_occupancy demoRandint 0).1,
    (C10_seeding_writes_no_occupancy demoRandint 0).2.1⟩

end Parking
